import Mathlib

/-!
Verification of the dataset-preparation core of pydicer
(`src/pydicer/dataset/preparation.py`).

The development shallowly embeds the two classes of that module:

* `PrepareDataset` — `add_object_to_dataset`, `prepare_from_dataframe`
  (the `prepare` entry point only resolves a preparation function and then
  calls `prepare_from_dataframe`, so the claims are settled against the
  latter);
* `StructureSet` — the lazily-cached, name-mapped accessor over a structure
  set's label volumes and its `create_mapping_json` helper.

Python paths (`pathlib.Path`) are embedded as a flag for absoluteness plus
the list of path components; `Path.relative_to` returns `Option` because the
Python original raises `ValueError` when the argument is not a prefix.
Filesystem state is explicit: a pool of existing objects, an association
list of symlinks (location, target) and an association list of manifest
files (pandas CSV round-trips of the all-string manifest rows are embedded
as storing the row list itself; `reset_index(drop=True)` is the identity in
this representation).  Exceptions are embedded with `Except`.
-/

set_option autoImplicit false

namespace Pydicer

/-! ## Path model (pathlib.Path) -/

/-- A `pathlib.Path`: whether it is absolute, plus its components. -/
structure PyPath where
  absolute : Bool
  parts : List String
deriving DecidableEq

/-- A relative path made of the given components (e.g. `Path("name")`). -/
def PyPath.rel (parts : List String) : PyPath := ⟨false, parts⟩

/-- `Path.joinpath`: an absolute argument replaces the receiver, a relative
one is appended. -/
def PyPath.joinpath (p q : PyPath) : PyPath :=
  if q.absolute then q else ⟨p.absolute, p.parts ++ q.parts⟩

/-- `Path.parent`: drop the last component. -/
def PyPath.parent (p : PyPath) : PyPath := ⟨p.absolute, p.parts.dropLast⟩

/-- `Path.relative_to`: defined when both paths have the same anchor and the
argument's components are a prefix of the receiver's; `none` embeds the
`ValueError` that Python raises otherwise. -/
def PyPath.relative_to (p q : PyPath) : Option PyPath :=
  if (p.absolute == q.absolute) && q.parts.isPrefixOf p.parts then
    some ⟨false, p.parts.drop q.parts.length⟩
  else none

/-- Resolve a relative target (possibly starting with `..` components)
against a base directory, the way the OS resolves a symlink target. -/
def resolveRel : List String → List String → List String
  | base, [] => base
  | base, c :: rest =>
    if c = ".." then resolveRel base.dropLast rest
    else resolveRel (base ++ [c]) rest

/-! ## Association lists (files keyed by path, caches keyed by name) -/

/-- First-match lookup in an association list. -/
def lookupA {κ α : Type} [DecidableEq κ] : List (κ × α) → κ → Option α
  | [], _ => none
  | (k, v) :: rest, q => if k = q then some v else lookupA rest q

/-- Overwrite-or-create the entry at key `k` (a file write / dict store). -/
def setEntry {κ α : Type} [DecidableEq κ] (m : List (κ × α)) (k : κ) (v : α) :
    List (κ × α) :=
  (k, v) :: m.filter (fun e => decide (e.1 ≠ k))

/-! ## String helpers (Python `str.replace` / `str.endswith`) -/

/-- Fuel-indexed worker for `pyReplace`; the fuel is the length of the
remaining text, so the recursion is structural. -/
def pyReplaceAux (pat rep : List Char) : Nat → List Char → List Char
  | 0, s => s
  | _ + 1, [] => []
  | fuel + 1, c :: rest =>
    if pat ≠ [] ∧ pat.isPrefixOf (c :: rest) then
      rep ++ pyReplaceAux pat rep fuel ((c :: rest).drop pat.length)
    else
      c :: pyReplaceAux pat rep fuel rest

/-- Python `s.replace(pat, rep)`: replace every occurrence, left to right. -/
def pyReplace (s pat rep : String) : String :=
  ⟨pyReplaceAux pat.data rep.data s.data.length s.data⟩

/-- Python `s.endswith(pat)`. -/
def pyEndsWith (s pat : String) : Bool :=
  pat.data.isSuffixOf s.data

/-! ## Data model -/

/-- One row of a converted-data manifest (`pd.Series`); the four columns the
core reads.  Identifier-like columns are strings (the source forces
`patient_id` and `hashed_uid` to `str` when re-reading a manifest). -/
structure Record where
  patient_id : String
  hashed_uid : String
  modality : String
  path : PyPath
deriving DecidableEq

/-- Embedded Python exceptions raised by the module.  `valueError` is what
`Path.relative_to` and a bad `level` raise (the spec's IntegrityError /
ConfigurationError); `keyError` carries its message because one claim is
about the message's contents. -/
inductive PyErr where
  | valueError
  | fileExistsError
  | attributeError
  | keyError (msg : String)
deriving DecidableEq

/-- Explicit filesystem state threaded through the stateful methods. -/
structure FS where
  /-- Paths of objects that exist in the converted pool. -/
  pool : List PyPath
  /-- Symlinks: location ↦ target, as created by `Path.symlink_to`. -/
  links : List (PyPath × PyPath)
  /-- Per-patient manifest files: path of `converted.csv` ↦ its rows. -/
  manifests : List (PyPath × List Record)
deriving DecidableEq

/-- Resolve a symlink's stored target: an absolute target stands alone, a
relative one is resolved against the link's parent directory. -/
def FS.resolveLink (loc target : PyPath) : PyPath :=
  if target.absolute then target
  else ⟨loc.absolute, resolveRel loc.parent.parts target.parts⟩

/-- `Path.exists()` at `p`: a pool object, a symlink whose resolved target
is a pool object (`exists` follows links), or a manifest file. -/
def FS.pathExists (fs : FS) (p : PyPath) : Bool :=
  decide (p ∈ fs.pool) ||
    (match lookupA fs.links p with
     | some t => decide (FS.resolveLink p t ∈ fs.pool)
     | none => false) ||
    (lookupA fs.manifests p).isSome

/-- Modelled from the spec: `CONVERTED_DIR_NAME` lives in `pydicer.constants`,
which is not under `src/`; the spec fixes the pool subdirectory name as
`converted/`. -/
def CONVERTED_DIR_NAME : String := "converted"

/-- The pool directory as a relative path (`Path(CONVERTED_DIR_NAME)`). -/
def convertedRel : PyPath := PyPath.rel [CONVERTED_DIR_NAME]

/-- `PrepareDataset`: its only state is the working directory. -/
structure PrepareDataset where
  working_directory : PyPath

/-- Lines 34–37: if the row's path is absolute, rewrite it relative to the
working directory (`ValueError`, i.e. `none`, when it is not under it);
a relative path is kept as is. -/
def normObjectPath (wd p : PyPath) : Option PyPath :=
  if p.absolute then p.relative_to wd else some p

/-- Line 40: the reference location
`dataset_dir/<object path with the pool prefix stripped>`. -/
def symlinkPathOf (wd : PyPath) (dataset_name : String) (stripped : PyPath) :
    PyPath :=
  (wd.joinpath (PyPath.rel [dataset_name])).joinpath stripped

/-- Lines 42–45: the symlink target, `".."` once per component of the link
parent's path relative to the working directory, then the root-relative
object path.  When that component list is empty the Python f-string
`f"{rel_part}{os.sep}{object_path}"` degenerates to an absolute path. -/
def srcPathFrom (relToWd opath : PyPath) : PyPath :=
  if relToWd.parts = [] then ⟨true, opath.parts⟩
  else ⟨false, List.replicate relToWd.parts.length ".." ++ opath.parts⟩

/-- Lines 55–56: `dataset_dir/<patient_id>/converted.csv`. -/
def patCsvOf (wd : PyPath) (dataset_name patient_id : String) : PyPath :=
  ((wd.joinpath (PyPath.rel [dataset_name])).joinpath
      (PyPath.rel [patient_id])).joinpath (PyPath.rel ["converted.csv"])

/-- Lines 57–71: the manifest rows to persist — start from `[row]`; if the
manifest file exists and has no row with the incoming `hashed_uid`, append,
otherwise keep the existing rows unchanged. -/
def mergedRows (existing : Option (List Record)) (row : Record) : List Record :=
  match existing with
  | some df_converted =>
    if (df_converted.filter
          (fun r => decide (r.hashed_uid = row.hashed_uid))).length = 0 then
      df_converted ++ [row]
    else
      df_converted
  | none => [row]

/-- Lines 54–72: write the merged per-patient manifest (the row passed here
already has its rewritten path). -/
def writeManifest (wd : PyPath) (dataset_name : String) (fs : FS)
    (row : Record) : FS :=
  let pat_converted_csv := patCsvOf wd dataset_name row.patient_id
  { fs with
    manifests := setEntry fs.manifests pat_converted_csv
      (mergedRows (lookupA fs.manifests pat_converted_csv) row) }

/-- `PrepareDataset.add_object_to_dataset` (lines 21–72).  The row is copied
before the path rewrite (line 32), which the pure embedding renders by
building the rewritten row locally.  `symlink_to` on a location that
`exists()` denies but that holds a stale entry raises `FileExistsError`. -/
def addObjectToDataset (st : PrepareDataset) (fs : FS) (dataset_name : String)
    (data_object_row : Record) : Except PyErr FS :=
  match normObjectPath st.working_directory data_object_row.path with
  | none => .error .valueError
  | some opath =>
    let row := { data_object_row with path := opath }
    match opath.relative_to convertedRel with
    | none => .error .valueError
    | some stripped =>
      let symlink_path := symlinkPathOf st.working_directory dataset_name stripped
      match symlink_path.parent.relative_to st.working_directory with
      | none => .error .valueError
      | some relToWd =>
        let src_path := srcPathFrom relToWd opath
        if fs.pathExists symlink_path then
          .ok (writeManifest st.working_directory dataset_name fs row)
        else if (lookupA fs.links symlink_path).isSome ||
            (lookupA fs.manifests symlink_path).isSome then
          .error .fileExistsError
        else
          .ok (writeManifest st.working_directory dataset_name
            { fs with links := (symlink_path, src_path) :: fs.links } row)

/-- The `for _, row in df_prepare.iterrows()` loop of
`prepare_from_dataframe` (lines 95–96): place each row in order; an
exception propagates and stops the loop. -/
def runAdds (st : PrepareDataset) (dataset_name : String) :
    FS → List Record → Except PyErr FS
  | fs, [] => .ok fs
  | fs, r :: rest =>
    match addObjectToDataset st fs dataset_name r with
    | .ok fs1 => runAdds st dataset_name fs1 rest
    | .error e => .error e

/-- Lines 90–92: `df_prepare.path.apply(lambda p: str(Path(p).relative_to(
working_directory)))` — rewrite every path, first failure raising out of the
whole column rewrite. -/
def rewritePaths (wd : PyPath) : List Record → Except PyErr (List Record)
  | [] => .ok []
  | r :: rest =>
    match r.path.relative_to wd with
    | none => .error .valueError
    | some relp =>
      match rewritePaths wd rest with
      | .ok rs => .ok ({ r with path := relp } :: rs)
      | .error e => .error e

/-- `PrepareDataset.prepare_from_dataframe` (lines 74–96).  The column
assignment on line 90 mutates the caller's DataFrame, so the embedding
returns the caller-visible table alongside the filesystem state.  The
pre-existing-directory warning (lines 83–87) is log-only and not modelled. -/
def prepareFromDataframe (st : PrepareDataset) (fs : FS) (dataset_name : String)
    (df_prepare : List Record) : Except PyErr (FS × List Record) :=
  match rewritePaths st.working_directory df_prepare with
  | .error e => .error e
  | .ok df_rewritten =>
    match runAdds st dataset_name fs df_rewritten with
    | .ok fs1 => .ok (fs1, df_rewritten)
    | .error e => .error e

/-- The `hashed_uid` column of the manifest file at `p` (empty when the
file does not exist). -/
def uidsAt (fs : FS) (p : PyPath) : List String :=
  ((lookupA fs.manifests p).getD []).map Record.hashed_uid

/-! ## StructureSet -/

/-- A structure-name mapping: canonical name ↦ institution name variants
(the JSON object under `"structures"`). -/
abbrev StructMapping := List (String × List String)

/-- Modelled from the spec: `map_structure_name` lives in `pydicer.utils`,
which is not under `src/`; the spec describes it as the pluggable
structure-name resolver — "given a requested name and a mapping, returns the
name to use for disk lookup; exact matching policy is pluggable/out of
scope" ("may do exact or fuzzy matching").  It is therefore embedded as an
arbitrary function of this type, passed to `getitem`. -/
def Resolver : Type := String → StructMapping → String

/-- The state of a `StructureSet` accessor, with volumes of type `V`
(the in-memory images returned by the out-of-scope volume reader). -/
structure SSState (V : Type) where
  structure_set_path : PyPath
  structure_names : List String
  structure_mapping : Option StructMapping
  cache : List (String × V)

/-- `StructureSet.__init__` (lines 135–150).  `dirListing` is the directory
contents; `glob("*.nii.gz")` filters it by suffix.  The second component of
a successful result is the list of volume files read during construction —
always `[]`, since the constructor only lists the directory. -/
def StructureSet.init (V : Type) (structure_set_row : Record)
    (structure_mapping : Option StructMapping) (dirListing : List String) :
    Except PyErr (SSState V × List PyPath) :=
  if ¬ structure_set_row.modality = "RTSTRUCT" then .error .attributeError
  else
    let structure_set_path := structure_set_row.path
    let structure_names :=
      (dirListing.filter (fun s => pyEndsWith s ".nii.gz")).map
        (fun s => pyReplace s ".nii.gz" "")
    let structure_names :=
      match structure_mapping with
      | some m => m.map (fun e => e.1)
      | none => structure_names
    .ok ({ structure_set_path := structure_set_path,
           structure_names := structure_names,
           structure_mapping := structure_mapping,
           cache := [] }, [])

/-- Lines 154–155: resolve the requested name through the mapping when one
was supplied, otherwise use it as is. -/
def resolveName {V : Type} (resolver : Resolver) (ss : SSState V)
    (item : String) : String :=
  match ss.structure_mapping with
  | some m => resolver item m
  | none => item

/-- `StructureSet.__getitem__` (lines 152–168).  `disk` is the out-of-scope
volume reader (`sitk.ReadImage`); the third component of a successful result
is the list of volume files read by the call. -/
def StructureSet.getitem {V : Type} (resolver : Resolver) (disk : PyPath → V)
    (ss : SSState V) (item : String) :
    Except PyErr (V × SSState V × List PyPath) :=
  let item := resolveName resolver ss item
  if item ∉ ss.structure_names then
    .error (.keyError ("Structure name " ++ item ++
      " not found in structure set."))
  else
    match lookupA ss.cache item with
    | some v => .ok (v, ss, [])
    | none =>
      let structure_path :=
        ss.structure_set_path.joinpath (PyPath.rel [item ++ ".nii.gz"])
      let result := disk structure_path
      .ok (result, { ss with cache := setEntry ss.cache item result },
        [structure_path])

/-- `StructureSet.keys` (lines 170–171). -/
def StructureSet.keys {V : Type} (ss : SSState V) : List String :=
  ss.structure_names

/-- JSON values, as far as the mapping documents need them. -/
inductive JsonVal where
  | str (s : String)
  | arr (elems : List JsonVal)
  | obj (fields : List (String × JsonVal))

/-- The JSON image of a structure mapping. -/
def encodeMapping (m : StructMapping) : JsonVal :=
  JsonVal.obj (m.map (fun e => (e.1, JsonVal.arr (e.2.map JsonVal.str))))

/-- JSON documents on disk, keyed by path (`json.dump` followed by
`json.load` is the identity on the value, so a file stores the value). -/
abbrev JsonFS := List (PyPath × JsonVal)

/-- Lines 183–192: the directory for the mapping document of a given
`level`; an unrecognized level raises `ValueError`. -/
def StructureSet.levelPath {V : Type} (ss : SSState V) (level : String) :
    Except PyErr PyPath :=
  if level = "project" then
    .ok (ss.structure_set_path.parent.parent.parent.parent.joinpath
      (PyPath.rel [".pydicer"]))
  else if level = "patient" then
    .ok ss.structure_set_path.parent.parent
  else if level = "current_structure_set" then
    .ok ss.structure_set_path
  else
    .error .valueError

/-- `StructureSet.create_mapping_json` (lines 173–198): wrap the mapping in
`{"structures": ...}` and write it to `<level dir>/structures_map.json`.
The accessor state is returned so non-mutation is visible. -/
def StructureSet.create_mapping_json {V : Type} (jfs : JsonFS)
    (ss : SSState V) (mapping_dict : StructMapping) (level : String) :
    Except PyErr (JsonFS × SSState V) :=
  let final_map := JsonVal.obj [("structures", encodeMapping mapping_dict)]
  match StructureSet.levelPath ss level with
  | .error e => .error e
  | .ok path =>
    .ok (setEntry jfs (path.joinpath (PyPath.rel ["structures_map.json"]))
      final_map, ss)

/-! ## Basic lemmas about the path and file models -/

theorem isPrefixOf_eq_true_iff (l₁ l₂ : List String) :
    l₁.isPrefixOf l₂ = true ↔ ∃ t, l₂ = l₁ ++ t := by
  induction l₁ generalizing l₂ with
  | nil => simp [List.isPrefixOf]
  | cons a as ih =>
    cases l₂ with
    | nil => simp [List.isPrefixOf]
    | cons b bs =>
      simp only [List.isPrefixOf, Bool.and_eq_true, beq_iff_eq, ih,
        List.cons_append]
      constructor
      · rintro ⟨rfl, t, rfl⟩
        exact ⟨t, rfl⟩
      · rintro ⟨t, ht⟩
        injection ht with h1 h2
        exact ⟨h1.symm, t, h2⟩

theorem relative_to_some_elim {p q r : PyPath} (h : p.relative_to q = some r) :
    p.absolute = q.absolute ∧ r.absolute = false ∧
      p.parts = q.parts ++ r.parts := by
  unfold PyPath.relative_to at h
  split at h
  case isFalse => exact absurd h (by simp)
  case isTrue hc =>
    rw [Bool.and_eq_true, beq_iff_eq] at hc
    obtain ⟨hab, hpre⟩ := hc
    obtain ⟨t, ht⟩ := (isPrefixOf_eq_true_iff _ _).mp hpre
    injection h with h
    subst h
    refine ⟨hab, rfl, ?_⟩
    rw [ht, List.drop_left]

theorem relative_to_intro (p q : PyPath) (t : List String)
    (hab : p.absolute = q.absolute) (hp : p.parts = q.parts ++ t) :
    p.relative_to q = some ⟨false, t⟩ := by
  unfold PyPath.relative_to
  rw [if_pos]
  · rw [hp, List.drop_left]
  · rw [Bool.and_eq_true, beq_iff_eq]
    exact ⟨hab, (isPrefixOf_eq_true_iff _ _).mpr ⟨t, hp⟩⟩

/-! ## Association-list lemmas -/

theorem lookupA_setEntry_self {κ α : Type} [DecidableEq κ]
    (m : List (κ × α)) (k : κ) (v : α) :
    lookupA (setEntry m k v) k = some v := by
  simp [setEntry, lookupA]

theorem lookupA_filter_ne {κ α : Type} [DecidableEq κ] (m : List (κ × α))
    (k q : κ) (h : q ≠ k) :
    lookupA (m.filter (fun e => decide (e.1 ≠ k))) q = lookupA m q := by
  induction m with
  | nil => rfl
  | cons e rest ih =>
    obtain ⟨ek, ev⟩ := e
    by_cases he : ek = k
    · subst he
      rw [List.filter_cons_of_neg (by simp), ih]
      simp only [lookupA]
      rw [if_neg (fun hek : ek = q => h hek.symm)]
    · rw [List.filter_cons_of_pos (by simp [he])]
      simp only [lookupA]
      rw [ih]

theorem lookupA_setEntry_ne {κ α : Type} [DecidableEq κ] (m : List (κ × α))
    (k : κ) (v : α) (q : κ) (h : q ≠ k) :
    lookupA (setEntry m k v) q = lookupA m q := by
  simp only [setEntry, lookupA, if_neg (fun hk : k = q => h hk.symm)]
  exact lookupA_filter_ne m k q h

theorem filter_eq_self_of_lookupA_none {κ α : Type} [DecidableEq κ]
    (m : List (κ × α)) (k : κ) (h : lookupA m k = none) :
    m.filter (fun e => decide (e.1 ≠ k)) = m := by
  induction m with
  | nil => rfl
  | cons e rest ih =>
    obtain ⟨ek, ev⟩ := e
    simp only [lookupA] at h
    by_cases he : ek = k
    · simp [he] at h
    · simp only [if_neg he] at h
      rw [List.filter_cons_of_pos (by simp [he]), ih h]

theorem filter_key_eq_nil_of_lookupA_none {κ α : Type} [DecidableEq κ]
    (m : List (κ × α)) (k : κ) (h : lookupA m k = none) :
    m.filter (fun e => decide (e.1 = k)) = [] := by
  induction m with
  | nil => rfl
  | cons e rest ih =>
    obtain ⟨ek, ev⟩ := e
    simp only [lookupA] at h
    by_cases he : ek = k
    · simp [he] at h
    · simp only [if_neg he] at h
      rw [List.filter_cons_of_neg (by simp [he]), ih h]

/-! ## Symlink-resolution lemmas -/

theorem resolveRel_replicate (l base tail : List String) :
    resolveRel (base ++ l) (List.replicate l.length ".." ++ tail) =
      resolveRel base tail := by
  induction l using List.reverseRecOn with
  | nil => simp
  | append_singleton xs x ih =>
    have h1 : (xs ++ [x]).length = xs.length + 1 := by simp
    rw [h1, List.replicate_succ, List.cons_append]
    simp only [resolveRel, if_pos rfl]
    rw [← List.append_assoc, List.dropLast_concat]
    exact ih

theorem resolveRel_no_dots (l base : List String) (h : ".." ∉ l) :
    resolveRel base l = base ++ l := by
  induction l generalizing base with
  | nil => simp [resolveRel]
  | cons c rest ih =>
    have hc : ¬c = ".." := by
      rintro rfl
      exact h (List.mem_cons_self _ _)
    have hr : ".." ∉ rest := fun hm => h (List.mem_cons_of_mem _ hm)
    simp only [resolveRel, if_neg hc]
    rw [ih _ hr]
    simp

/-! ## Computation lemmas for `addObjectToDataset` -/

theorem symlinkPathOf_eq (wd : PyPath) (n : String) (stripped : PyPath)
    (hs : stripped.absolute = false) :
    symlinkPathOf wd n stripped =
      ⟨wd.absolute, wd.parts ++ ([n] ++ stripped.parts)⟩ := by
  simp [symlinkPathOf, PyPath.joinpath, PyPath.rel, hs]

theorem symlinkParent_relative (wd : PyPath) (n : String) (stripped : PyPath)
    (hs : stripped.absolute = false) :
    (symlinkPathOf wd n stripped).parent.relative_to wd =
      some ⟨false, ([n] ++ stripped.parts).dropLast⟩ := by
  rw [symlinkPathOf_eq wd n stripped hs]
  apply relative_to_intro
  · rfl
  · exact List.dropLast_append_of_ne_nil wd.parts (by simp)

/-- When the reference location is entirely fresh (`exists()` denies it and
nothing stale sits there), `add_object_to_dataset` creates the symlink and
then merges the manifest. -/
theorem addObject_fresh (st : PrepareDataset) (fs : FS) (n : String)
    (row : Record) (opath stripped : PyPath)
    (hn : normObjectPath st.working_directory row.path = some opath)
    (hs : opath.relative_to convertedRel = some stripped)
    (hlink : lookupA fs.links (symlinkPathOf st.working_directory n stripped) = none)
    (hman : lookupA fs.manifests (symlinkPathOf st.working_directory n stripped) = none)
    (hpool : symlinkPathOf st.working_directory n stripped ∉ fs.pool) :
    addObjectToDataset st fs n row = .ok (writeManifest st.working_directory n
      { fs with links := (symlinkPathOf st.working_directory n stripped,
          srcPathFrom ⟨false, ([n] ++ stripped.parts).dropLast⟩ opath) :: fs.links }
      { row with path := opath }) := by
  have hsa : stripped.absolute = false := (relative_to_some_elim hs).2.1
  have hex : fs.pathExists (symlinkPathOf st.working_directory n stripped) = false := by
    simp [FS.pathExists, hlink, hman, hpool]
  simp only [addObjectToDataset, hn, hs,
    symlinkParent_relative st.working_directory n stripped hsa, hex,
    Bool.false_eq_true, if_false, hlink, hman, Option.isSome_none,
    Bool.or_self]

/-- When `exists()` already accepts the reference location, the call leaves
the links alone and only merges the manifest. -/
theorem addObject_existing (st : PrepareDataset) (fs : FS) (n : String)
    (row : Record) (opath stripped : PyPath)
    (hn : normObjectPath st.working_directory row.path = some opath)
    (hs : opath.relative_to convertedRel = some stripped)
    (hex : fs.pathExists (symlinkPathOf st.working_directory n stripped) = true) :
    addObjectToDataset st fs n row = .ok (writeManifest st.working_directory n
      fs { row with path := opath }) := by
  have hsa : stripped.absolute = false := (relative_to_some_elim hs).2.1
  simp only [addObjectToDataset, hn, hs,
    symlinkParent_relative st.working_directory n stripped hsa, hex, if_true]

/-- Inversion: any successful `add_object_to_dataset` call leaves the pool
alone, never removes a link, and replaces the patient's manifest file by the
merge of its previous contents with the path-rewritten row. -/
theorem addObject_ok_elim {st : PrepareDataset} {fs : FS} {n : String}
    {row : Record} {fs' : FS}
    (h : addObjectToDataset st fs n row = .ok fs') :
    ∃ opath, normObjectPath st.working_directory row.path = some opath ∧
      fs'.pool = fs.pool ∧
      (∀ l ∈ fs.links, l ∈ fs'.links) ∧
      fs'.manifests = setEntry fs.manifests
        (patCsvOf st.working_directory n row.patient_id)
        (mergedRows
          (lookupA fs.manifests (patCsvOf st.working_directory n row.patient_id))
          { row with path := opath }) := by
  unfold addObjectToDataset at h
  split at h
  · exact absurd h (by simp)
  next opath hn =>
    split at h
    · exact absurd h (by simp)
    next stripped hs' =>
      dsimp only at h
      split at h
      · exact absurd h (by simp)
      next relToWd hrel =>
        split at h
        · injection h with h
          subst h
          exact ⟨opath, hn, rfl, fun l hl => hl, rfl⟩
        · split at h
          · exact absurd h (by simp)
          · injection h with h
            subst h
            exact ⟨opath, hn, rfl, fun l hl => List.mem_cons_of_mem _ hl, rfl⟩

/-! ## Lemmas about the manifest merge -/

theorem mergedRows_none (row : Record) : mergedRows none row = [row] := rfl

theorem mergedRows_some (m : List Record) (row : Record) :
    mergedRows (some m) row =
      if (m.filter (fun r => decide (r.hashed_uid = row.hashed_uid))).length = 0
      then m ++ [row] else m := rfl

theorem mergedRows_keeps (m : List Record) (row r₀ : Record) (h₀ : r₀ ∈ m)
    (he : r₀.hashed_uid = row.hashed_uid) : mergedRows (some m) row = m := by
  rw [mergedRows_some, if_neg]
  intro hlen
  rw [List.length_eq_zero, List.filter_eq_nil_iff] at hlen
  exact hlen r₀ h₀ (by simp [he])

theorem mergedRows_extends (ex : Option (List Record)) (row : Record)
    (m : List Record) (hm : ex = some m) :
    ∃ t, mergedRows ex row = m ++ t := by
  subst hm
  rw [mergedRows_some]
  split
  · exact ⟨[row], rfl⟩
  · exact ⟨[], (List.append_nil m).symm⟩

theorem mergedRows_uid_mem (ex : Option (List Record)) (row : Record) :
    row.hashed_uid ∈ (mergedRows ex row).map Record.hashed_uid := by
  cases ex with
  | none => simp [mergedRows_none]
  | some m =>
    rw [mergedRows_some]
    split
    · simp
    next hlen =>
      have hex : ∃ r ∈ m, r.hashed_uid = row.hashed_uid := by
        by_contra hc
        push_neg at hc
        apply hlen
        rw [List.length_eq_zero, List.filter_eq_nil_iff]
        intro r hr
        simp [hc r hr]
      obtain ⟨r, hr, he⟩ := hex
      exact List.mem_map.mpr ⟨r, hr, he⟩

theorem mergedRows_nodup (ex : Option (List Record)) (row : Record)
    (h : ∀ m, ex = some m → (m.map Record.hashed_uid).Nodup) :
    ((mergedRows ex row).map Record.hashed_uid).Nodup := by
  cases ex with
  | none => simp [mergedRows_none]
  | some m =>
    have hm := h m rfl
    rw [mergedRows_some]
    split
    next hlen =>
      rw [List.length_eq_zero, List.filter_eq_nil_iff] at hlen
      have hnotin : row.hashed_uid ∉ m.map Record.hashed_uid := by
        intro hmem
        obtain ⟨r, hr, he⟩ := List.mem_map.mp hmem
        have hne := hlen r hr
        simp only [decide_eq_true_eq] at hne
        exact hne he
      simp [List.nodup_append, hm, hnotin]
    · exact hm

/-! ## Preservation lemmas for single placements -/

theorem addObject_nodup {st : PrepareDataset} {fs : FS} {n : String}
    {row : Record} {fs' : FS} (h : addObjectToDataset st fs n row = .ok fs')
    (hinv : ∀ p m, lookupA fs.manifests p = some m →
      (m.map Record.hashed_uid).Nodup) :
    ∀ p m, lookupA fs'.manifests p = some m →
      (m.map Record.hashed_uid).Nodup := by
  obtain ⟨opath, hn, hpool, hlinks, hman⟩ := addObject_ok_elim h
  intro p m hm
  rw [hman] at hm
  by_cases hp : p = patCsvOf st.working_directory n row.patient_id
  · subst hp
    rw [lookupA_setEntry_self] at hm
    injection hm with hm
    subst hm
    exact mergedRows_nodup _ _ (fun m0 hm0 => hinv _ m0 hm0)
  · rw [lookupA_setEntry_ne _ _ _ _ hp] at hm
    exact hinv _ _ hm

theorem addObject_manifest_extends {st : PrepareDataset} {fs : FS} {n : String}
    {row : Record} {fs' : FS} (h : addObjectToDataset st fs n row = .ok fs') :
    ∀ p m, lookupA fs.manifests p = some m →
      ∃ t, lookupA fs'.manifests p = some (m ++ t) := by
  obtain ⟨opath, hn, hpool, hlinks, hman⟩ := addObject_ok_elim h
  intro p m hm
  rw [hman]
  by_cases hp : p = patCsvOf st.working_directory n row.patient_id
  · subst hp
    obtain ⟨t, ht⟩ := mergedRows_extends _ { row with path := opath } m hm
    exact ⟨t, by rw [lookupA_setEntry_self, ht]⟩
  · exact ⟨[], by rw [lookupA_setEntry_ne _ _ _ _ hp, List.append_nil]; exact hm⟩

theorem addObject_links_mono {st : PrepareDataset} {fs : FS} {n : String}
    {row : Record} {fs' : FS} (h : addObjectToDataset st fs n row = .ok fs') :
    ∀ l ∈ fs.links, l ∈ fs'.links := by
  obtain ⟨opath, hn, hpool, hlinks, hman⟩ := addObject_ok_elim h
  exact hlinks

theorem addObject_covers {st : PrepareDataset} {fs : FS} {n : String}
    {row : Record} {fs' : FS} (h : addObjectToDataset st fs n row = .ok fs') :
    row.hashed_uid ∈ uidsAt fs' (patCsvOf st.working_directory n row.patient_id) := by
  obtain ⟨opath, hn, hpool, hlinks, hman⟩ := addObject_ok_elim h
  unfold uidsAt
  rw [hman, lookupA_setEntry_self]
  simpa using
    mergedRows_uid_mem
      (lookupA fs.manifests (patCsvOf st.working_directory n row.patient_id))
      { row with path := opath }

theorem addObject_uid_persists {st : PrepareDataset} {fs : FS} {n : String}
    {row : Record} {fs' : FS} {p : PyPath} {u : String}
    (h : addObjectToDataset st fs n row = .ok fs') (hu : u ∈ uidsAt fs p) :
    u ∈ uidsAt fs' p := by
  unfold uidsAt at hu ⊢
  cases hl : lookupA fs.manifests p with
  | none => rw [hl] at hu; simp at hu
  | some m =>
    rw [hl] at hu
    obtain ⟨t, ht⟩ := addObject_manifest_extends h p m hl
    rw [ht]
    simp only [Option.getD_some, List.map_append] at hu ⊢
    exact List.mem_append_left _ hu

/-! ## Preservation lemmas along the placement loop -/

theorem runAdds_nodup {st : PrepareDataset} {n : String} :
    ∀ {rows : List Record} {fs fs' : FS}, runAdds st n fs rows = .ok fs' →
      (∀ p m, lookupA fs.manifests p = some m →
        (m.map Record.hashed_uid).Nodup) →
      ∀ p m, lookupA fs'.manifests p = some m →
        (m.map Record.hashed_uid).Nodup := by
  intro rows
  induction rows with
  | nil =>
    intro fs fs' h hinv
    unfold runAdds at h
    injection h with h
    subst h
    exact hinv
  | cons r rest ih =>
    intro fs fs' h hinv
    unfold runAdds at h
    split at h
    next fs1 hadd => exact ih h (addObject_nodup hadd hinv)
    next e hadd => exact absurd h (by simp)

theorem runAdds_manifest_extends {st : PrepareDataset} {n : String} :
    ∀ {rows : List Record} {fs fs' : FS}, runAdds st n fs rows = .ok fs' →
      ∀ p m, lookupA fs.manifests p = some m →
        ∃ t, lookupA fs'.manifests p = some (m ++ t) := by
  intro rows
  induction rows with
  | nil =>
    intro fs fs' h p m hm
    unfold runAdds at h
    injection h with h
    subst h
    exact ⟨[], by rw [List.append_nil]; exact hm⟩
  | cons r rest ih =>
    intro fs fs' h p m hm
    unfold runAdds at h
    split at h
    next fs1 hadd =>
      obtain ⟨t1, ht1⟩ := addObject_manifest_extends hadd p m hm
      obtain ⟨t2, ht2⟩ := ih h p (m ++ t1) ht1
      exact ⟨t1 ++ t2, by rw [← List.append_assoc]; exact ht2⟩
    next e hadd => exact absurd h (by simp)

theorem runAdds_links_mono {st : PrepareDataset} {n : String} :
    ∀ {rows : List Record} {fs fs' : FS}, runAdds st n fs rows = .ok fs' →
      ∀ l ∈ fs.links, l ∈ fs'.links := by
  intro rows
  induction rows with
  | nil =>
    intro fs fs' h l hl
    unfold runAdds at h
    injection h with h
    subst h
    exact hl
  | cons r rest ih =>
    intro fs fs' h l hl
    unfold runAdds at h
    split at h
    next fs1 hadd => exact ih h l (addObject_links_mono hadd l hl)
    next e hadd => exact absurd h (by simp)

theorem runAdds_uid_persists {st : PrepareDataset} {n : String} :
    ∀ {rows : List Record} {fs fs' : FS} {p : PyPath} {u : String},
      runAdds st n fs rows = .ok fs' → u ∈ uidsAt fs p → u ∈ uidsAt fs' p := by
  intro rows
  induction rows with
  | nil =>
    intro fs fs' p u h hu
    unfold runAdds at h
    injection h with h
    subst h
    exact hu
  | cons r rest ih =>
    intro fs fs' p u h hu
    unfold runAdds at h
    split at h
    next fs1 hadd => exact ih h (addObject_uid_persists hadd hu)
    next e hadd => exact absurd h (by simp)

theorem runAdds_covers {st : PrepareDataset} {n : String} :
    ∀ {rows : List Record} {fs fs' : FS}, runAdds st n fs rows = .ok fs' →
      ∀ r ∈ rows,
        r.hashed_uid ∈ uidsAt fs' (patCsvOf st.working_directory n r.patient_id) := by
  intro rows
  induction rows with
  | nil =>
    intro fs fs' h r hr
    cases hr
  | cons a rest ih =>
    intro fs fs' h r hr
    unfold runAdds at h
    split at h
    next fs1 hadd =>
      rcases List.mem_cons.mp hr with rfl | hr'
      · exact runAdds_uid_persists h (addObject_covers hadd)
      · exact ih h r hr'
    next e hadd => exact absurd h (by simp)

/-! ## Lemmas about the batch path rewrite -/

theorem rewritePaths_ok_elim {wd : PyPath} :
    ∀ {df df' : List Record}, rewritePaths wd df = .ok df' →
      List.Forall₂ (fun r r' =>
        r'.patient_id = r.patient_id ∧ r'.hashed_uid = r.hashed_uid ∧
        r'.modality = r.modality ∧ r.path.relative_to wd = some r'.path) df df' := by
  intro df
  induction df with
  | nil =>
    intro df' h
    unfold rewritePaths at h
    injection h with h
    subst h
    exact List.Forall₂.nil
  | cons r rest ih =>
    intro df' h
    unfold rewritePaths at h
    split at h
    · exact absurd h (by simp)
    next relp hrel =>
      split at h
      next rs hrs =>
        injection h with h
        subst h
        exact List.Forall₂.cons ⟨rfl, rfl, rfl, hrel⟩ (ih hrs)
      next e hrs => exact absurd h (by simp)

theorem rewritePaths_error_of_bad {wd : PyPath} :
    ∀ {df : List Record}, (∃ r ∈ df, r.path.relative_to wd = none) →
      rewritePaths wd df = .error .valueError := by
  intro df
  induction df with
  | nil =>
    rintro ⟨r, hr, hbad⟩
    cases hr
  | cons a rest ih =>
    rintro ⟨r, hr, hbad⟩
    unfold rewritePaths
    rcases List.mem_cons.mp hr with rfl | hr'
    · rw [hbad]
    · cases ha : a.path.relative_to wd with
      | none => rfl
      | some relp => rw [ih ⟨r, hr', hbad⟩]

theorem forall₂_mem_left {α β : Type} {R : α → β → Prop} {l : List α}
    {l' : List β} (h : List.Forall₂ R l l') {a : α} (ha : a ∈ l) :
    ∃ b ∈ l', R a b := by
  induction h with
  | nil => cases ha
  | cons hr htl ih =>
    rcases List.mem_cons.mp ha with rfl | ha'
    · exact ⟨_, List.mem_cons_self _ _, hr⟩
    · obtain ⟨b, hb, hrb⟩ := ih ha'
      exact ⟨b, List.mem_cons_of_mem _ hb, hrb⟩

theorem prepareFromDataframe_ok_elim {st : PrepareDataset} {fs : FS}
    {n : String} {df : List Record} {fs' : FS} {df' : List Record}
    (h : prepareFromDataframe st fs n df = .ok (fs', df')) :
    rewritePaths st.working_directory df = .ok df' ∧
      runAdds st n fs df' = .ok fs' := by
  unfold prepareFromDataframe at h
  split at h
  · exact absurd h (by simp)
  next dfr hrw =>
    split at h
    next fs1 hrun =>
      injection h with hpair
      simp only [Prod.mk.injEq] at hpair
      obtain ⟨rfl, rfl⟩ := hpair
      exact ⟨hrw, hrun⟩
    next e hrun => exact absurd h (by simp)

/-! ## Claim C4 -/

/-- C4: for every record passed to `add_object_to_dataset`, an absolute
`record.path` under the working root is recorded in the manifest rewritten
relative to the working root (the stored path is relative and re-anchoring
it at the root gives back the original absolute path), while an absolute
path outside the working root fails with the `ValueError` raised by
`Path.relative_to` (the spec's IntegrityError) and the object is not placed
(the call returns no new state). -/
theorem claim_C4_path_safety :
    (∀ (st : PrepareDataset) (fs : FS) (n : String) (row : Record)
        (opath stripped : PyPath),
      row.path.absolute = true →
      row.path.relative_to st.working_directory = some opath →
      opath.relative_to convertedRel = some stripped →
      lookupA fs.links (symlinkPathOf st.working_directory n stripped) = none →
      lookupA fs.manifests (symlinkPathOf st.working_directory n stripped) = none →
      symlinkPathOf st.working_directory n stripped ∉ fs.pool →
      lookupA fs.manifests (patCsvOf st.working_directory n row.patient_id) = none →
      ∃ fs', addObjectToDataset st fs n row = .ok fs' ∧
        lookupA fs'.manifests (patCsvOf st.working_directory n row.patient_id) =
          some [{ row with path := opath }] ∧
        opath.absolute = false ∧
        st.working_directory.parts ++ opath.parts = row.path.parts) ∧
    (∀ (st : PrepareDataset) (fs : FS) (n : String) (row : Record),
      row.path.absolute = true →
      row.path.relative_to st.working_directory = none →
      addObjectToDataset st fs n row = .error .valueError) := by
  constructor
  · intro st fs n row opath stripped hab hrel hs hlink hman hpool hcsv
    have hn : normObjectPath st.working_directory row.path = some opath := by
      unfold normObjectPath
      rw [if_pos hab]
      exact hrel
    refine ⟨_, addObject_fresh st fs n row opath stripped hn hs hlink hman hpool,
      ?_, (relative_to_some_elim hrel).2.1, (relative_to_some_elim hrel).2.2.symm⟩
    unfold writeManifest
    dsimp only
    rw [lookupA_setEntry_self, hcsv, mergedRows_none]
  · intro st fs n row hab hrel
    have hn : normObjectPath st.working_directory row.path = none := by
      unfold normObjectPath
      rw [if_pos hab]
      exact hrel
    simp only [addObjectToDataset, hn]

/-- Witness for C4 at a concrete record: both branches instantiated. -/
theorem claim_C4_witness :
    (∃ fs', addObjectToDataset ⟨⟨true, ["data", "work"]⟩⟩ ⟨[], [], []⟩ "ds"
        ⟨"P1", "a", "CT", ⟨true, ["data", "work", "converted", "P1", "img"]⟩⟩ =
          .ok fs' ∧
      lookupA fs'.manifests
          (patCsvOf ⟨true, ["data", "work"]⟩ "ds" "P1") =
        some [⟨"P1", "a", "CT", ⟨false, ["converted", "P1", "img"]⟩⟩] ∧
      (⟨false, ["converted", "P1", "img"]⟩ : PyPath).absolute = false ∧
      (⟨true, ["data", "work"]⟩ : PyPath).parts ++
          (⟨false, ["converted", "P1", "img"]⟩ : PyPath).parts =
        (⟨true, ["data", "work", "converted", "P1", "img"]⟩ : PyPath).parts) ∧
    addObjectToDataset ⟨⟨true, ["data", "work"]⟩⟩ ⟨[], [], []⟩ "ds"
      ⟨"P1", "b", "CT", ⟨true, ["other", "x"]⟩⟩ = .error .valueError :=
  ⟨claim_C4_path_safety.1 ⟨⟨true, ["data", "work"]⟩⟩ ⟨[], [], []⟩ "ds"
      ⟨"P1", "a", "CT", ⟨true, ["data", "work", "converted", "P1", "img"]⟩⟩
      ⟨false, ["converted", "P1", "img"]⟩ ⟨false, ["P1", "img"]⟩
      rfl rfl rfl rfl rfl (by simp) rfl,
   claim_C4_path_safety.2 ⟨⟨true, ["data", "work"]⟩⟩ ⟨[], [], []⟩ "ds"
      ⟨"P1", "b", "CT", ⟨true, ["other", "x"]⟩⟩ rfl rfl⟩

/-! ## Claim C5 -/

/-- C5 counterexample: the claim says an IntegrityError in one row's
placement does not abort sibling rows.  On the code it does: the batch
below contains a good first row that is placed when it is the only row, yet
adding a second row whose path is outside the working root makes the whole
`prepare_from_dataframe` call raise, with no row placed at all. -/
theorem claim_C5_counterexample :
    prepareFromDataframe ⟨⟨true, ["data", "work"]⟩⟩
        ⟨[⟨true, ["data", "work", "converted", "P1", "img"]⟩], [], []⟩ "ds"
        [⟨"P1", "a", "CT", ⟨true, ["data", "work", "converted", "P1", "img"]⟩⟩] =
      .ok
        (⟨[⟨true, ["data", "work", "converted", "P1", "img"]⟩],
          [(⟨true, ["data", "work", "ds", "P1", "img"]⟩,
            ⟨false, ["..", "..", "converted", "P1", "img"]⟩)],
          [(⟨true, ["data", "work", "ds", "P1", "converted.csv"]⟩,
            [⟨"P1", "a", "CT", ⟨false, ["converted", "P1", "img"]⟩⟩])]⟩,
         [⟨"P1", "a", "CT", ⟨false, ["converted", "P1", "img"]⟩⟩]) ∧
    prepareFromDataframe ⟨⟨true, ["data", "work"]⟩⟩
        ⟨[⟨true, ["data", "work", "converted", "P1", "img"]⟩], [], []⟩ "ds"
        [⟨"P1", "a", "CT", ⟨true, ["data", "work", "converted", "P1", "img"]⟩⟩,
         ⟨"P1", "b", "CT", ⟨true, ["other", "converted", "P1", "x"]⟩⟩] =
      .error .valueError :=
  ⟨rfl, rfl⟩

/-- C5 (amended): an IntegrityError (a row path that cannot be made
relative to the working root) aborts the entire batch materialization:
`prepare_from_dataframe` rewrites the whole path column before placing
anything and does not isolate per-row failures, so when any row's rewrite
fails the call raises and no row of the batch — sibling rows included — is
placed. -/
theorem claim_C5_batch_abort (st : PrepareDataset) (fs : FS) (n : String)
    (df : List Record)
    (h : ∃ r ∈ df, r.path.relative_to st.working_directory = none) :
    prepareFromDataframe st fs n df = .error .valueError := by
  unfold prepareFromDataframe
  rw [rewritePaths_error_of_bad h]

/-- Witness for the amended C5. -/
theorem claim_C5_witness :
    prepareFromDataframe ⟨⟨true, ["w"]⟩⟩ ⟨[], [], []⟩ "d"
        [⟨"P", "u", "CT", ⟨true, ["other"]⟩⟩] = .error .valueError :=
  claim_C5_batch_abort ⟨⟨true, ["w"]⟩⟩ ⟨[], [], []⟩ "d"
    [⟨"P", "u", "CT", ⟨true, ["other"]⟩⟩]
    ⟨⟨"P", "u", "CT", ⟨true, ["other"]⟩⟩, List.mem_cons_self _ _, rfl⟩

/-! ## Claim C10 -/

/-- C10: `prepare_from_dataframe` mutates the caller's DataFrame in place —
the column assignment on line 90 rewrites the `path` column of
`df_prepare` itself, so after a successful call every entry of the
caller-visible table (returned by the embedding as the second component)
has been rewritten relative to the working directory, all other columns
unchanged.  This contrasts with `add_object_to_dataset`, which copies its
row (line 32) before rewriting, a copy the pure embedding renders by never
returning a modified row. -/
theorem claim_C10_prepare_mutates_paths (st : PrepareDataset) (fs : FS)
    (n : String) (df : List Record) (fs' : FS) (df' : List Record)
    (h : prepareFromDataframe st fs n df = .ok (fs', df')) :
    List.Forall₂ (fun r r' =>
      r'.patient_id = r.patient_id ∧ r'.hashed_uid = r.hashed_uid ∧
      r'.modality = r.modality ∧
      r.path.relative_to st.working_directory = some r'.path ∧
      r'.path.absolute = false) df df' := by
  obtain ⟨hrw, hrun⟩ := prepareFromDataframe_ok_elim h
  refine List.Forall₂.imp ?_ (rewritePaths_ok_elim hrw)
  intro r r' hr
  obtain ⟨h1, h2, h3, h4⟩ := hr
  exact ⟨h1, h2, h3, h4, (relative_to_some_elim h4).2.1⟩

/-- Witness for C10 at a one-row table. -/
theorem claim_C10_witness :
    List.Forall₂ (fun r r' : Record =>
      r'.patient_id = r.patient_id ∧ r'.hashed_uid = r.hashed_uid ∧
      r'.modality = r.modality ∧
      r.path.relative_to (⟨true, ["data", "work"]⟩ : PyPath) = some r'.path ∧
      r'.path.absolute = false)
      [⟨"P1", "a", "CT", ⟨true, ["data", "work", "converted", "P1", "img"]⟩⟩]
      [⟨"P1", "a", "CT", ⟨false, ["converted", "P1", "img"]⟩⟩] :=
  claim_C10_prepare_mutates_paths ⟨⟨true, ["data", "work"]⟩⟩
    ⟨[⟨true, ["data", "work", "converted", "P1", "img"]⟩], [], []⟩ "ds"
    [⟨"P1", "a", "CT", ⟨true, ["data", "work", "converted", "P1", "img"]⟩⟩]
    ⟨[⟨true, ["data", "work", "converted", "P1", "img"]⟩],
      [(⟨true, ["data", "work", "ds", "P1", "img"]⟩,
        ⟨false, ["..", "..", "converted", "P1", "img"]⟩)],
      [(⟨true, ["data", "work", "ds", "P1", "converted.csv"]⟩,
        [⟨"P1", "a", "CT", ⟨false, ["converted", "P1", "img"]⟩⟩])]⟩
    [⟨"P1", "a", "CT", ⟨false, ["converted", "P1", "img"]⟩⟩] rfl

/-! ## Claim C2 -/

/-- C2: across every sequence of `add_object_to_dataset` calls the
per-patient manifest never holds two rows with the same `hashed_uid`
(provided the starting manifests satisfy that invariant — an empty or
absent manifest does trivially), and re-adding a record whose `hashed_uid`
already appears in the patient's manifest leaves the manifest — hence every
field of the existing row — unchanged: the existing record wins and the
incoming row is discarded. -/
theorem claim_C2_manifest_uid_unique :
    (∀ (st : PrepareDataset) (fs : FS) (n : String) (rows : List Record)
        (fs' : FS),
      runAdds st n fs rows = .ok fs' →
      (∀ p m, lookupA fs.manifests p = some m →
        (m.map Record.hashed_uid).Nodup) →
      ∀ p m, lookupA fs'.manifests p = some m →
        (m.map Record.hashed_uid).Nodup) ∧
    (∀ (st : PrepareDataset) (fs : FS) (n : String) (row : Record) (fs' : FS)
        (m : List Record) (r₀ : Record),
      lookupA fs.manifests (patCsvOf st.working_directory n row.patient_id) =
        some m →
      r₀ ∈ m → r₀.hashed_uid = row.hashed_uid →
      addObjectToDataset st fs n row = .ok fs' →
      lookupA fs'.manifests (patCsvOf st.working_directory n row.patient_id) =
        some m) := by
  constructor
  · intro st fs n rows fs' h hinv
    exact runAdds_nodup h hinv
  · intro st fs n row fs' m r₀ hm h₀ he hadd
    obtain ⟨opath, hn, hpool, hlinks, hman⟩ := addObject_ok_elim hadd
    rw [hman, lookupA_setEntry_self, hm,
      mergedRows_keeps m { row with path := opath } r₀ h₀ he]

/-- Witness for C2: a duplicated placement yields a duplicate-free one-row
manifest, and re-adding the same `hashed_uid` with a different modality
leaves the manifest unchanged. -/
theorem claim_C2_witness :
    (List.map Record.hashed_uid
      [⟨"P1", "a", "CT", ⟨false, ["converted", "P1", "img"]⟩⟩]).Nodup ∧
    lookupA
      (⟨[⟨true, ["data", "work", "converted", "P1", "img"]⟩,
          ⟨true, ["data", "work", "converted", "P1", "img2"]⟩],
        [(⟨true, ["data", "work", "ds", "P1", "img"]⟩,
          ⟨false, ["..", "..", "converted", "P1", "img"]⟩)],
        [(⟨true, ["data", "work", "ds", "P1", "converted.csv"]⟩,
          [⟨"P1", "a", "CT", ⟨false, ["converted", "P1", "img"]⟩⟩])]⟩ :
          FS).manifests
      ⟨true, ["data", "work", "ds", "P1", "converted.csv"]⟩ =
      some [⟨"P1", "a", "CT", ⟨false, ["converted", "P1", "img"]⟩⟩] := by
  have H := claim_C2_manifest_uid_unique
  refine ⟨H.1 ⟨⟨true, ["data", "work"]⟩⟩
      ⟨[⟨true, ["data", "work", "converted", "P1", "img"]⟩,
        ⟨true, ["data", "work", "converted", "P1", "img2"]⟩], [], []⟩ "ds"
      [⟨"P1", "a", "CT", ⟨false, ["converted", "P1", "img"]⟩⟩,
       ⟨"P1", "a", "CT", ⟨false, ["converted", "P1", "img"]⟩⟩]
      ⟨[⟨true, ["data", "work", "converted", "P1", "img"]⟩,
          ⟨true, ["data", "work", "converted", "P1", "img2"]⟩],
        [(⟨true, ["data", "work", "ds", "P1", "img"]⟩,
          ⟨false, ["..", "..", "converted", "P1", "img"]⟩)],
        [(⟨true, ["data", "work", "ds", "P1", "converted.csv"]⟩,
          [⟨"P1", "a", "CT", ⟨false, ["converted", "P1", "img"]⟩⟩])]⟩
      rfl (fun p m hm => by simp [lookupA] at hm)
      ⟨true, ["data", "work", "ds", "P1", "converted.csv"]⟩
      [⟨"P1", "a", "CT", ⟨false, ["converted", "P1", "img"]⟩⟩] rfl,
    H.2 ⟨⟨true, ["data", "work"]⟩⟩
      ⟨[⟨true, ["data", "work", "converted", "P1", "img"]⟩,
          ⟨true, ["data", "work", "converted", "P1", "img2"]⟩],
        [(⟨true, ["data", "work", "ds", "P1", "img"]⟩,
          ⟨false, ["..", "..", "converted", "P1", "img"]⟩)],
        [(⟨true, ["data", "work", "ds", "P1", "converted.csv"]⟩,
          [⟨"P1", "a", "CT", ⟨false, ["converted", "P1", "img"]⟩⟩])]⟩ "ds"
      ⟨"P1", "a", "MR", ⟨false, ["converted", "P1", "img"]⟩⟩
      ⟨[⟨true, ["data", "work", "converted", "P1", "img"]⟩,
          ⟨true, ["data", "work", "converted", "P1", "img2"]⟩],
        [(⟨true, ["data", "work", "ds", "P1", "img"]⟩,
          ⟨false, ["..", "..", "converted", "P1", "img"]⟩)],
        [(⟨true, ["data", "work", "ds", "P1", "converted.csv"]⟩,
          [⟨"P1", "a", "CT", ⟨false, ["converted", "P1", "img"]⟩⟩])]⟩
      [⟨"P1", "a", "CT", ⟨false, ["converted", "P1", "img"]⟩⟩]
      ⟨"P1", "a", "CT", ⟨false, ["converted", "P1", "img"]⟩⟩
      rfl (List.mem_cons_self _ _) rfl rfl⟩

/-! ## Claim C3 -/

/-- C3: re-running `prepare_from_dataframe` on a previously populated
dataset with a different (possibly narrower) selection never removes
previously placed manifest rows or references — every manifest file only
grows by appended rows, every link survives — and the final per-patient
manifest covers the union of all rows ever selected across the two
invocations (each selected row's `hashed_uid` is present in its patient's
manifest). -/
theorem claim_C3_append_only (st : PrepareDataset) (fs fs₁ fs₂ : FS)
    (n : String) (df₁ df₂ out₁ out₂ : List Record)
    (h₁ : prepareFromDataframe st fs n df₁ = .ok (fs₁, out₁))
    (h₂ : prepareFromDataframe st fs₁ n df₂ = .ok (fs₂, out₂)) :
    (∀ p m, lookupA fs₁.manifests p = some m →
      ∃ t, lookupA fs₂.manifests p = some (m ++ t)) ∧
    (∀ l ∈ fs₁.links, l ∈ fs₂.links) ∧
    (∀ r ∈ df₁,
      r.hashed_uid ∈ uidsAt fs₂ (patCsvOf st.working_directory n r.patient_id)) ∧
    (∀ r ∈ df₂,
      r.hashed_uid ∈ uidsAt fs₂ (patCsvOf st.working_directory n r.patient_id)) := by
  obtain ⟨hrw₁, hrun₁⟩ := prepareFromDataframe_ok_elim h₁
  obtain ⟨hrw₂, hrun₂⟩ := prepareFromDataframe_ok_elim h₂
  refine ⟨fun p m hm => runAdds_manifest_extends hrun₂ p m hm,
    fun l hl => runAdds_links_mono hrun₂ l hl, ?_, ?_⟩
  · intro r hr
    obtain ⟨r', hr', hrel⟩ := forall₂_mem_left (rewritePaths_ok_elim hrw₁) hr
    obtain ⟨hp, hu, _, _⟩ := hrel
    rw [← hp, ← hu]
    exact runAdds_uid_persists hrun₂ (runAdds_covers hrun₁ r' hr')
  · intro r hr
    obtain ⟨r', hr', hrel⟩ := forall₂_mem_left (rewritePaths_ok_elim hrw₂) hr
    obtain ⟨hp, hu, _, _⟩ := hrel
    rw [← hp, ← hu]
    exact runAdds_covers hrun₂ r' hr'

/-- Witness for C3: preparing `{a}` then `{b}` on the same dataset leaves
both uids in the manifest and the first run's row as a prefix. -/
theorem claim_C3_witness :
    "a" ∈ uidsAt
        (⟨[⟨true, ["data", "work", "converted", "P1", "img"]⟩,
            ⟨true, ["data", "work", "converted", "P1", "img2"]⟩],
          [(⟨true, ["data", "work", "ds", "P1", "img2"]⟩,
            ⟨false, ["..", "..", "converted", "P1", "img2"]⟩),
           (⟨true, ["data", "work", "ds", "P1", "img"]⟩,
            ⟨false, ["..", "..", "converted", "P1", "img"]⟩)],
          [(⟨true, ["data", "work", "ds", "P1", "converted.csv"]⟩,
            [⟨"P1", "a", "CT", ⟨false, ["converted", "P1", "img"]⟩⟩,
             ⟨"P1", "b", "CT", ⟨false, ["converted", "P1", "img2"]⟩⟩])]⟩ : FS)
        (patCsvOf ⟨true, ["data", "work"]⟩ "ds" "P1") ∧
    "b" ∈ uidsAt
        (⟨[⟨true, ["data", "work", "converted", "P1", "img"]⟩,
            ⟨true, ["data", "work", "converted", "P1", "img2"]⟩],
          [(⟨true, ["data", "work", "ds", "P1", "img2"]⟩,
            ⟨false, ["..", "..", "converted", "P1", "img2"]⟩),
           (⟨true, ["data", "work", "ds", "P1", "img"]⟩,
            ⟨false, ["..", "..", "converted", "P1", "img"]⟩)],
          [(⟨true, ["data", "work", "ds", "P1", "converted.csv"]⟩,
            [⟨"P1", "a", "CT", ⟨false, ["converted", "P1", "img"]⟩⟩,
             ⟨"P1", "b", "CT", ⟨false, ["converted", "P1", "img2"]⟩⟩])]⟩ : FS)
        (patCsvOf ⟨true, ["data", "work"]⟩ "ds" "P1") ∧
    ∃ t, lookupA
        ([(⟨true, ["data", "work", "ds", "P1", "converted.csv"]⟩,
            [⟨"P1", "a", "CT", ⟨false, ["converted", "P1", "img"]⟩⟩,
             ⟨"P1", "b", "CT", ⟨false, ["converted", "P1", "img2"]⟩⟩])] :
          List (PyPath × List Record))
        ⟨true, ["data", "work", "ds", "P1", "converted.csv"]⟩ =
      some ([⟨"P1", "a", "CT", ⟨false, ["converted", "P1", "img"]⟩⟩] ++ t) := by
  have H := claim_C3_append_only ⟨⟨true, ["data", "work"]⟩⟩
    ⟨[⟨true, ["data", "work", "converted", "P1", "img"]⟩,
        ⟨true, ["data", "work", "converted", "P1", "img2"]⟩], [], []⟩
    ⟨[⟨true, ["data", "work", "converted", "P1", "img"]⟩,
        ⟨true, ["data", "work", "converted", "P1", "img2"]⟩],
      [(⟨true, ["data", "work", "ds", "P1", "img"]⟩,
        ⟨false, ["..", "..", "converted", "P1", "img"]⟩)],
      [(⟨true, ["data", "work", "ds", "P1", "converted.csv"]⟩,
        [⟨"P1", "a", "CT", ⟨false, ["converted", "P1", "img"]⟩⟩])]⟩
    ⟨[⟨true, ["data", "work", "converted", "P1", "img"]⟩,
        ⟨true, ["data", "work", "converted", "P1", "img2"]⟩],
      [(⟨true, ["data", "work", "ds", "P1", "img2"]⟩,
        ⟨false, ["..", "..", "converted", "P1", "img2"]⟩),
       (⟨true, ["data", "work", "ds", "P1", "img"]⟩,
        ⟨false, ["..", "..", "converted", "P1", "img"]⟩)],
      [(⟨true, ["data", "work", "ds", "P1", "converted.csv"]⟩,
        [⟨"P1", "a", "CT", ⟨false, ["converted", "P1", "img"]⟩⟩,
         ⟨"P1", "b", "CT", ⟨false, ["converted", "P1", "img2"]⟩⟩])]⟩ "ds"
    [⟨"P1", "a", "CT", ⟨true, ["data", "work", "converted", "P1", "img"]⟩⟩]
    [⟨"P1", "b", "CT", ⟨true, ["data", "work", "converted", "P1", "img2"]⟩⟩]
    [⟨"P1", "a", "CT", ⟨false, ["converted", "P1", "img"]⟩⟩]
    [⟨"P1", "b", "CT", ⟨false, ["converted", "P1", "img2"]⟩⟩] rfl rfl
  exact ⟨H.2.2.1 _ (List.mem_cons_self _ _),
    H.2.2.2 _ (List.mem_cons_self _ _),
    H.1 ⟨true, ["data", "work", "ds", "P1", "converted.csv"]⟩
      [⟨"P1", "a", "CT", ⟨false, ["converted", "P1", "img"]⟩⟩] rfl⟩

/-! ## The shape of the created reference target -/

theorem dropLast_marker_ne_nil (n : String) (stripped : PyPath)
    (hne : stripped.parts ≠ []) : ([n] ++ stripped.parts).dropLast ≠ [] := by
  have hlen : (([n] ++ stripped.parts).dropLast).length = stripped.parts.length := by
    simp
  intro hc
  rw [hc] at hlen
  exact hne (List.length_eq_zero.mp hlen.symm)

/-- The symlink target computed on lines 42–45 is relative, consists of one
`".."` per directory level between the reference's parent and the working
root followed by the root-relative object path, and resolves from the
reference's parent back to the object's location under the working root. -/
theorem srcPath_resolves (wd : PyPath) (n : String) (opath stripped : PyPath)
    (hsa : stripped.absolute = false) (hne : stripped.parts ≠ [])
    (hnod : ".." ∉ opath.parts) :
    (srcPathFrom ⟨false, ([n] ++ stripped.parts).dropLast⟩ opath).absolute = false ∧
    (srcPathFrom ⟨false, ([n] ++ stripped.parts).dropLast⟩ opath).parts =
      List.replicate (([n] ++ stripped.parts).dropLast).length ".." ++ opath.parts ∧
    FS.resolveLink (symlinkPathOf wd n stripped)
        (srcPathFrom ⟨false, ([n] ++ stripped.parts).dropLast⟩ opath) =
      ⟨wd.absolute, wd.parts ++ opath.parts⟩ := by
  have hDne := dropLast_marker_ne_nil n stripped hne
  have hsrc : srcPathFrom ⟨false, ([n] ++ stripped.parts).dropLast⟩ opath =
      ⟨false, List.replicate (([n] ++ stripped.parts).dropLast).length ".." ++
        opath.parts⟩ := by
    unfold srcPathFrom
    rw [if_neg hDne]
  have hparent : (symlinkPathOf wd n stripped).parent =
      ⟨wd.absolute, wd.parts ++ ([n] ++ stripped.parts).dropLast⟩ := by
    rw [symlinkPathOf_eq _ _ _ hsa]
    unfold PyPath.parent
    dsimp only
    rw [List.dropLast_append_of_ne_nil _ (by simp)]
  refine ⟨by rw [hsrc], by rw [hsrc], ?_⟩
  rw [hsrc]
  unfold FS.resolveLink
  dsimp only
  rw [if_neg (by simp), hparent, symlinkPathOf_eq _ _ _ hsa]
  dsimp only
  rw [resolveRel_replicate, resolveRel_no_dots _ _ hnod]

/-! ## Claim C6 -/

/-- C6: for every placed record the created reference's target is expressed
purely as N `".."` components — one per directory level from the
reference's parent down to the working root — followed by the root-relative
object path, contains no absolute anchor, and resolving it from the
reference's parent directory yields the original pool object under the
working root. -/
theorem claim_C6_reference_target (st : PrepareDataset) (fs : FS) (n : String)
    (row : Record) (opath stripped : PyPath)
    (hn : normObjectPath st.working_directory row.path = some opath)
    (hs : opath.relative_to convertedRel = some stripped)
    (hne : stripped.parts ≠ []) (hnod : ".." ∉ opath.parts)
    (hlink : lookupA fs.links (symlinkPathOf st.working_directory n stripped) = none)
    (hman : lookupA fs.manifests (symlinkPathOf st.working_directory n stripped) = none)
    (hpool : symlinkPathOf st.working_directory n stripped ∉ fs.pool) :
    ∃ fs' src k, addObjectToDataset st fs n row = .ok fs' ∧
      (symlinkPathOf st.working_directory n stripped, src) ∈ fs'.links ∧
      src.absolute = false ∧
      src.parts = List.replicate k ".." ++ opath.parts ∧
      k + st.working_directory.parts.length =
        (symlinkPathOf st.working_directory n stripped).parent.parts.length ∧
      FS.resolveLink (symlinkPathOf st.working_directory n stripped) src =
        ⟨st.working_directory.absolute,
          st.working_directory.parts ++ opath.parts⟩ := by
  have hsa : stripped.absolute = false := (relative_to_some_elim hs).2.1
  obtain ⟨hsabs, hsparts, hres⟩ :=
    srcPath_resolves st.working_directory n opath stripped hsa hne hnod
  refine ⟨_, srcPathFrom ⟨false, ([n] ++ stripped.parts).dropLast⟩ opath,
    (([n] ++ stripped.parts).dropLast).length,
    addObject_fresh st fs n row opath stripped hn hs hlink hman hpool,
    List.mem_cons_self _ _, hsabs, hsparts, ?_, hres⟩
  rw [symlinkPathOf_eq _ _ _ hsa]
  unfold PyPath.parent
  dsimp only
  rw [List.dropLast_append_of_ne_nil st.working_directory.parts
    (show [n] ++ stripped.parts ≠ [] by simp), List.length_append]
  exact Nat.add_comm _ _

/-- Witness for C6 at a concrete record. -/
theorem claim_C6_witness :
    ∃ fs' src k,
      addObjectToDataset ⟨⟨true, ["data", "work"]⟩⟩
          ⟨[⟨true, ["data", "work", "converted", "P1", "img"]⟩], [], []⟩ "ds"
          ⟨"P1", "a", "CT", ⟨false, ["converted", "P1", "img"]⟩⟩ = .ok fs' ∧
      (symlinkPathOf ⟨true, ["data", "work"]⟩ "ds" ⟨false, ["P1", "img"]⟩, src) ∈
        fs'.links ∧
      src.absolute = false ∧
      src.parts = List.replicate k ".." ++
        (⟨false, ["converted", "P1", "img"]⟩ : PyPath).parts ∧
      k + (⟨true, ["data", "work"]⟩ : PyPath).parts.length =
        (symlinkPathOf ⟨true, ["data", "work"]⟩ "ds"
          ⟨false, ["P1", "img"]⟩).parent.parts.length ∧
      FS.resolveLink
          (symlinkPathOf ⟨true, ["data", "work"]⟩ "ds" ⟨false, ["P1", "img"]⟩) src =
        ⟨(⟨true, ["data", "work"]⟩ : PyPath).absolute,
          (⟨true, ["data", "work"]⟩ : PyPath).parts ++
            (⟨false, ["converted", "P1", "img"]⟩ : PyPath).parts⟩ :=
  claim_C6_reference_target ⟨⟨true, ["data", "work"]⟩⟩
    ⟨[⟨true, ["data", "work", "converted", "P1", "img"]⟩], [], []⟩ "ds"
    ⟨"P1", "a", "CT", ⟨false, ["converted", "P1", "img"]⟩⟩
    ⟨false, ["converted", "P1", "img"]⟩ ⟨false, ["P1", "img"]⟩
    rfl rfl (by decide) (by decide) rfl rfl (by decide)

/-! ## Claim C1 -/

theorem filter_self_idem {α : Type} (p : α → Bool) (l : List α) :
    (l.filter p).filter p = l.filter p := by
  induction l with
  | nil => rfl
  | cons a t ih =>
    by_cases ha : p a = true
    · rw [List.filter_cons_of_pos ha, List.filter_cons_of_pos ha, ih]
    · rw [List.filter_cons_of_neg ha, ih]

theorem writeManifest_eq_self (wd : PyPath) (n : String) (fs : FS)
    (row : Record)
    (h : setEntry fs.manifests (patCsvOf wd n row.patient_id)
        (mergedRows (lookupA fs.manifests (patCsvOf wd n row.patient_id)) row) =
      fs.manifests) :
    writeManifest wd n fs row = fs := by
  unfold writeManifest
  dsimp only
  rw [h]

/-- C1: placing the same record twice in the same dataset is idempotent —
the first call succeeds, the second call succeeds and returns the very same
filesystem state (so the patient's manifest file is byte-identical to the
one after the first call), exactly one reference exists at the record's
reference location, and the manifest holds exactly one row for the
record. -/
theorem claim_C1_place_object_idempotent (st : PrepareDataset) (fs : FS)
    (n : String) (row : Record) (opath stripped : PyPath)
    (hn : normObjectPath st.working_directory row.path = some opath)
    (hs : opath.relative_to convertedRel = some stripped)
    (hne : stripped.parts ≠ []) (hnod : ".." ∉ opath.parts)
    (hlink : lookupA fs.links (symlinkPathOf st.working_directory n stripped) = none)
    (hman : lookupA fs.manifests (symlinkPathOf st.working_directory n stripped) = none)
    (hpool : symlinkPathOf st.working_directory n stripped ∉ fs.pool)
    (hcsv : lookupA fs.manifests (patCsvOf st.working_directory n row.patient_id) = none)
    (hobj : (⟨st.working_directory.absolute,
        st.working_directory.parts ++ opath.parts⟩ : PyPath) ∈ fs.pool) :
    ∃ fs₁, addObjectToDataset st fs n row = .ok fs₁ ∧
      addObjectToDataset st fs₁ n row = .ok fs₁ ∧
      (fs₁.links.filter (fun e =>
        decide (e.1 = symlinkPathOf st.working_directory n stripped))).length = 1 ∧
      lookupA fs₁.manifests (patCsvOf st.working_directory n row.patient_id) =
        some [{ row with path := opath }] := by
  have hsa : stripped.absolute = false := (relative_to_some_elim hs).2.1
  obtain ⟨hsabs, hsparts, hres⟩ :=
    srcPath_resolves st.working_directory n opath stripped hsa hne hnod
  have h1 := addObject_fresh st fs n row opath stripped hn hs hlink hman hpool
  have hm1 : (writeManifest st.working_directory n
      { fs with links := (symlinkPathOf st.working_directory n stripped,
          srcPathFrom ⟨false, ([n] ++ stripped.parts).dropLast⟩ opath) :: fs.links }
      { row with path := opath }).manifests =
      setEntry fs.manifests (patCsvOf st.working_directory n row.patient_id)
        [{ row with path := opath }] := by
    unfold writeManifest
    dsimp only
    rw [hcsv, mergedRows_none]
  have hm1' : (writeManifest st.working_directory n
      { fs with links := (symlinkPathOf st.working_directory n stripped,
          srcPathFrom ⟨false, ([n] ++ stripped.parts).dropLast⟩ opath) :: fs.links }
      { row with path := opath }).manifests =
      (patCsvOf st.working_directory n row.patient_id,
        [{ row with path := opath }]) :: fs.manifests := by
    rw [hm1]
    unfold setEntry
    rw [filter_eq_self_of_lookupA_none fs.manifests _ hcsv]
  have hlk : (writeManifest st.working_directory n
      { fs with links := (symlinkPathOf st.working_directory n stripped,
          srcPathFrom ⟨false, ([n] ++ stripped.parts).dropLast⟩ opath) :: fs.links }
      { row with path := opath }).links =
      (symlinkPathOf st.working_directory n stripped,
        srcPathFrom ⟨false, ([n] ++ stripped.parts).dropLast⟩ opath) :: fs.links := rfl
  have hlook1 : lookupA (writeManifest st.working_directory n
      { fs with links := (symlinkPathOf st.working_directory n stripped,
          srcPathFrom ⟨false, ([n] ++ stripped.parts).dropLast⟩ opath) :: fs.links }
      { row with path := opath }).manifests
      (patCsvOf st.working_directory n row.patient_id) =
      some [{ row with path := opath }] := by
    rw [hm1, lookupA_setEntry_self]
  have hl2 : lookupA (writeManifest st.working_directory n
      { fs with links := (symlinkPathOf st.working_directory n stripped,
          srcPathFrom ⟨false, ([n] ++ stripped.parts).dropLast⟩ opath) :: fs.links }
      { row with path := opath }).links
      (symlinkPathOf st.working_directory n stripped) =
      some (srcPathFrom ⟨false, ([n] ++ stripped.parts).dropLast⟩ opath) := by
    rw [hlk]
    simp [lookupA]
  have hex2 : (writeManifest st.working_directory n
      { fs with links := (symlinkPathOf st.working_directory n stripped,
          srcPathFrom ⟨false, ([n] ++ stripped.parts).dropLast⟩ opath) :: fs.links }
      { row with path := opath }).pathExists
      (symlinkPathOf st.working_directory n stripped) = true := by
    have hpool1 : (writeManifest st.working_directory n
        { fs with links := (symlinkPathOf st.working_directory n stripped,
            srcPathFrom ⟨false, ([n] ++ stripped.parts).dropLast⟩ opath) :: fs.links }
        { row with path := opath }).pool = fs.pool := rfl
    unfold FS.pathExists
    rw [hl2]
    dsimp only
    rw [hres, hpool1]
    simp [hobj]
  have h2 := addObject_existing st _ n row opath stripped hn hs hex2
  have heq : writeManifest st.working_directory n
      (writeManifest st.working_directory n
        { fs with links := (symlinkPathOf st.working_directory n stripped,
            srcPathFrom ⟨false, ([n] ++ stripped.parts).dropLast⟩ opath) :: fs.links }
        { row with path := opath })
      { row with path := opath } =
      writeManifest st.working_directory n
        { fs with links := (symlinkPathOf st.working_directory n stripped,
            srcPathFrom ⟨false, ([n] ++ stripped.parts).dropLast⟩ opath) :: fs.links }
        { row with path := opath } := by
    apply writeManifest_eq_self
    rw [hlook1,
      mergedRows_keeps [{ row with path := opath }] { row with path := opath }
        { row with path := opath } (List.mem_cons_self _ _) rfl, hm1']
    unfold setEntry
    rw [List.filter_cons_of_neg (by simp),
      filter_eq_self_of_lookupA_none fs.manifests _ hcsv]
  refine ⟨_, h1, ?_, ?_, hlook1⟩
  · rw [heq] at h2
    exact h2
  · rw [hlk, List.filter_cons_of_pos (by simp),
      filter_key_eq_nil_of_lookupA_none fs.links _ hlink]
    rfl

/-- Witness for C1 at a concrete record. -/
theorem claim_C1_witness :
    ∃ fs₁,
      addObjectToDataset ⟨⟨true, ["data", "work"]⟩⟩
          ⟨[⟨true, ["data", "work", "converted", "P1", "img"]⟩], [], []⟩ "ds"
          ⟨"P1", "a", "CT", ⟨false, ["converted", "P1", "img"]⟩⟩ = .ok fs₁ ∧
      addObjectToDataset ⟨⟨true, ["data", "work"]⟩⟩ fs₁ "ds"
          ⟨"P1", "a", "CT", ⟨false, ["converted", "P1", "img"]⟩⟩ = .ok fs₁ ∧
      (fs₁.links.filter (fun e => decide (e.1 =
        symlinkPathOf ⟨true, ["data", "work"]⟩ "ds"
          ⟨false, ["P1", "img"]⟩))).length = 1 ∧
      lookupA fs₁.manifests
          (patCsvOf ⟨true, ["data", "work"]⟩ "ds" "P1") =
        some [⟨"P1", "a", "CT", ⟨false, ["converted", "P1", "img"]⟩⟩] :=
  claim_C1_place_object_idempotent ⟨⟨true, ["data", "work"]⟩⟩
    ⟨[⟨true, ["data", "work", "converted", "P1", "img"]⟩], [], []⟩ "ds"
    ⟨"P1", "a", "CT", ⟨false, ["converted", "P1", "img"]⟩⟩
    ⟨false, ["converted", "P1", "img"]⟩ ⟨false, ["P1", "img"]⟩
    rfl rfl (by decide) (by decide) rfl rfl (by decide) rfl (by decide)

/-! ## Claim C7 -/

/-- C7: constructing a `StructureSet` performs zero volume reads (the
constructor only lists the directory, whatever the number of label files),
and for any name `x`, `get(x)` followed by a lookup of any key `y` that
resolves to the same name performs exactly one volume read in total: the
first call loads and caches the volume under the resolved name, the second
returns the cached volume with an empty read trace. -/
theorem claim_C7_lazy_cache {V : Type} (resolver : Resolver)
    (disk : PyPath → V) (row : Record) (mapping : Option StructMapping)
    (dirListing : List String) (ss ss₁ : SSState V) (tr reads₁ : List PyPath)
    (x y : String) (v : V)
    (hinit : StructureSet.init V row mapping dirListing = .ok (ss, tr))
    (hget : StructureSet.getitem resolver disk ss x = .ok (v, ss₁, reads₁))
    (hy : resolveName resolver ss₁ y = resolveName resolver ss x) :
    tr = [] ∧ reads₁.length = 1 ∧
      StructureSet.getitem resolver disk ss₁ y = .ok (v, ss₁, []) := by
  unfold StructureSet.init at hinit
  split at hinit
  · exact absurd hinit (by simp)
  · injection hinit with hpair
    simp only [Prod.mk.injEq] at hpair
    obtain ⟨hss, htr⟩ := hpair
    subst hss
    subst htr
    unfold StructureSet.getitem at hget
    dsimp only at hget
    split at hget
    · exact absurd hget (by simp)
    next hmem =>
      split at hget
      next v0 hv0 => simp [lookupA] at hv0
      next hv0 =>
        injection hget with hpair2
        simp only [Prod.mk.injEq] at hpair2
        obtain ⟨hv, hss1, hreads⟩ := hpair2
        subst hv
        subst hss1
        subst hreads
        refine ⟨rfl, rfl, ?_⟩
        unfold StructureSet.getitem
        dsimp only
        rw [hy, if_neg hmem]
        simp [lookupA, setEntry]

/-- Witness for C7: one file on disk, no mapping, two lookups of `heart`. -/
theorem claim_C7_witness :
    ([] : List PyPath) = [] ∧
    ([(⟨false, ["converted", "P1", "structures", "s", "heart.nii.gz"]⟩ :
        PyPath)].length = 1) ∧
    StructureSet.getitem (fun nm _ => nm) (fun _ => (7 : Nat))
        { structure_set_path := ⟨false, ["converted", "P1", "structures", "s"]⟩,
          structure_names := ["heart"], structure_mapping := none,
          cache := [("heart", 7)] } "heart" =
      .ok (7,
        { structure_set_path := ⟨false, ["converted", "P1", "structures", "s"]⟩,
          structure_names := ["heart"], structure_mapping := none,
          cache := [("heart", 7)] }, []) :=
  claim_C7_lazy_cache (fun nm _ => nm) (fun _ => (7 : Nat))
    ⟨"P1", "s", "RTSTRUCT", ⟨false, ["converted", "P1", "structures", "s"]⟩⟩
    none ["heart.nii.gz"]
    { structure_set_path := ⟨false, ["converted", "P1", "structures", "s"]⟩,
      structure_names := ["heart"], structure_mapping := none, cache := [] }
    { structure_set_path := ⟨false, ["converted", "P1", "structures", "s"]⟩,
      structure_names := ["heart"], structure_mapping := none,
      cache := [("heart", 7)] }
    [] [⟨false, ["converted", "P1", "structures", "s", "heart.nii.gz"]⟩]
    "heart" "heart" 7 rfl rfl rfl

/-! ## Claim C8 -/

/-- C8 counterexample: the claim says the not-found error identifies the
requested name (the name the caller passed in).  With a mapping present the
code resolves the name first (line 155) and formats the resolved name into
the message (line 158): below the caller asks for `"Heart"`, the pluggable
resolver returns `"cardiac"`, and the raised error reads
`"Structure name cardiac not found in structure set."` — a message in which
the requested name `"Heart"` does not occur at all. -/
theorem claim_C8_counterexample :
    StructureSet.getitem (V := Nat)
        (fun nm _ => if nm = "Heart" then "cardiac" else nm) (fun _ => 7)
        { structure_set_path := ⟨false, ["converted", "P1", "structures", "s"]⟩,
          structure_names := ["heart"],
          structure_mapping := some [("heart", ["HEART"])], cache := [] }
        "Heart" =
      .error (.keyError "Structure name cardiac not found in structure set.") ∧
    "Structure name cardiac not found in structure set." ≠
      "Structure name Heart not found in structure set." ∧
    ¬ ("Heart".data <:+:
        "Structure name cardiac not found in structure set.".data) :=
  ⟨rfl, by decide, by decide⟩

/-- C8 (amended): when the resolved name is not a member of the accessor's
known key set, `get` fails with a not-found `KeyError` whose message
identifies the *resolved* name — which equals the requested name exactly
when no mapping is supplied — and no volume is loaded or cached (the call
returns no new state and no read trace). -/
theorem claim_C8_not_found {V : Type} (resolver : Resolver)
    (disk : PyPath → V) (ss : SSState V) (item : String)
    (h : resolveName resolver ss item ∉ ss.structure_names) :
    StructureSet.getitem resolver disk ss item =
      .error (.keyError ("Structure name " ++ resolveName resolver ss item ++
        " not found in structure set.")) ∧
    (ss.structure_mapping = none → resolveName resolver ss item = item) := by
  constructor
  · unfold StructureSet.getitem
    dsimp only
    rw [if_pos h]
  · intro hnone
    unfold resolveName
    rw [hnone]

/-- Witness for the amended C8. -/
theorem claim_C8_witness :
    StructureSet.getitem (V := Nat) (fun nm _ => nm) (fun _ => 7)
        { structure_set_path := ⟨false, ["converted", "P1", "structures", "s"]⟩,
          structure_names := ["heart", "lung_l"], structure_mapping := none,
          cache := [] } "spine" =
      .error (.keyError ("Structure name " ++
        resolveName (fun nm _ => nm)
          ({ structure_set_path := ⟨false, ["converted", "P1", "structures", "s"]⟩,
             structure_names := ["heart", "lung_l"], structure_mapping := none,
             cache := [] } : SSState Nat) "spine" ++
        " not found in structure set.")) ∧
    (({ structure_set_path := ⟨false, ["converted", "P1", "structures", "s"]⟩,
        structure_names := ["heart", "lung_l"], structure_mapping := none,
        cache := [] } : SSState Nat).structure_mapping = none →
      resolveName (fun nm _ => nm)
        ({ structure_set_path := ⟨false, ["converted", "P1", "structures", "s"]⟩,
           structure_names := ["heart", "lung_l"], structure_mapping := none,
           cache := [] } : SSState Nat) "spine" = "spine") :=
  claim_C8_not_found (fun nm _ => nm) (fun _ => 7)
    { structure_set_path := ⟨false, ["converted", "P1", "structures", "s"]⟩,
      structure_names := ["heart", "lung_l"], structure_mapping := none,
      cache := [] } "spine" (by decide)

/-! ## Claim C9 -/

/-- C9: for every mapping and every recognized level,
`create_mapping_json` succeeds, writes the JSON document
`{"structures": mapping}` at the level-determined location
(`<level dir>/structures_map.json`), reading that document back yields
exactly that structure, and the accessor's own in-memory state — its
mapping included — is returned unchanged. -/
theorem claim_C9_mapping_roundtrip {V : Type} (jfs : JsonFS) (ss : SSState V)
    (m : StructMapping) (level : String)
    (h : level = "project" ∨ level = "patient" ∨
      level = "current_structure_set") :
    ∃ p jfs', StructureSet.levelPath ss level = .ok p ∧
      StructureSet.create_mapping_json jfs ss m level = .ok (jfs', ss) ∧
      lookupA jfs' (p.joinpath (PyPath.rel ["structures_map.json"])) =
        some (JsonVal.obj [("structures", encodeMapping m)]) := by
  have hp : ∃ p, StructureSet.levelPath ss level = .ok p := by
    rcases h with h | h | h <;> subst h <;> exact ⟨_, rfl⟩
  obtain ⟨p, hp⟩ := hp
  refine ⟨p, setEntry jfs (p.joinpath (PyPath.rel ["structures_map.json"]))
      (JsonVal.obj [("structures", encodeMapping m)]), hp, ?_,
    lookupA_setEntry_self _ _ _⟩
  unfold StructureSet.create_mapping_json
  rw [hp]

/-- Witness for C9 at level `"patient"`. -/
theorem claim_C9_witness :
    ∃ p jfs',
      StructureSet.levelPath
          ({ structure_set_path :=
              ⟨false, ["converted", "P1", "structures", "s"]⟩,
             structure_names := ["heart"], structure_mapping := none,
             cache := [] } : SSState Nat) "patient" = .ok p ∧
      StructureSet.create_mapping_json []
          ({ structure_set_path :=
              ⟨false, ["converted", "P1", "structures", "s"]⟩,
             structure_names := ["heart"], structure_mapping := none,
             cache := [] } : SSState Nat)
          [("heart", ["HEART", "Heart"])] "patient" =
        .ok (jfs',
          { structure_set_path :=
              ⟨false, ["converted", "P1", "structures", "s"]⟩,
            structure_names := ["heart"], structure_mapping := none,
            cache := [] }) ∧
      lookupA jfs' (p.joinpath (PyPath.rel ["structures_map.json"])) =
        some (JsonVal.obj
          [("structures", encodeMapping [("heart", ["HEART", "Heart"])])]) :=
  claim_C9_mapping_roundtrip []
    { structure_set_path := ⟨false, ["converted", "P1", "structures", "s"]⟩,
      structure_names := ["heart"], structure_mapping := none, cache := [] }
    [("heart", ["HEART", "Heart"])] "patient" (Or.inr (Or.inl rfl))

end Pydicer
